import Mathlib

/-!
Verification of the media-download resolution logic of
`app_worker/worker/core/downloader.py` (class `MediaDownloader`).

The Python code is shallowly embedded: dictionaries become structures whose
fields are `Option`-typed (a `none` field models an absent key), raising
becomes `Except PyError`, and the filesystem side effects (the scratch
directory, the staging "destination" directory, `shutil.move`, `remove_dir`,
`file_size`) become explicit state passing over an `FS` record.  Python float
values are modelled as rationals, which is exact for the decimal literals the
claims exercise.  The configured audio and thumbnail output extensions
(`FINAL_AUDIO_FORMAT`, `FINAL_THUMBNAIL_FORMAT`, imported from configuration
modules outside this repository snapshot) are threaded as parameters `A` and
`T`.
-/

/-- Python exception classes that the embedded code can raise.  Distinct
constructors model distinct (non-subclass-related) exception classes. -/
inductive PyError where
  /-- `KeyError` raised by a dict subscript on a missing key. -/
  | keyError (k : String)
  /-- `IndexError` raised by subscripting an empty list. -/
  | indexError
  /-- `TypeError` (e.g. subscripting `None`, or `Path / None`). -/
  | typeError
  /-- `AttributeError` (e.g. `None.get`). -/
  | attributeError
  /-- `ValueError` with its message. -/
  | valueError (msg : String)
  /-- `FileNotFoundError` from a filesystem operation. -/
  | fileNotFoundError
  /-- `shutil.Error` ("Destination path already exists"). -/
  | shutilError
deriving DecidableEq, Repr

/-- A loosely typed Python value as it occurs in metadata fields
(`duration`, `width`, `height`).  Python floats are modelled as rationals. -/
inductive PyVal where
  | none : PyVal
  | str : String → PyVal
  | int : Int → PyVal
  | float : Rat → PyVal
deriving DecidableEq, Repr

/-- `d[k]` on a dict field: the value when the key is present, `KeyError`
otherwise. -/
def getKey (v : Option α) (k : String) : Except PyError α :=
  match v with
  | some a => Except.ok a
  | Option.none => Except.error (PyError.keyError k)

/-- Strip leading and trailing whitespace (Python `float` strips its string
argument before parsing). -/
def stripWs (l : List Char) : List Char :=
  ((l.dropWhile Char.isWhitespace).reverse.dropWhile Char.isWhitespace).reverse

/-- Numeric value of a list of decimal digit characters. -/
def digitsVal (l : List Char) : Nat :=
  l.foldl (fun a c => a * 10 + (c.toNat - 48)) 0

/-- Parse an unsigned decimal literal (`123`, `12.5`, `.5`, `7.`) into a
rational. -/
def parseDecimal (cs : List Char) : Option Rat :=
  let ip := cs.takeWhile Char.isDigit
  let rest := cs.dropWhile Char.isDigit
  match rest with
  | [] => if ip.isEmpty then Option.none else some ((digitsVal ip : Nat) : Rat)
  | '.' :: fr =>
    if fr.all Char.isDigit && !(ip.isEmpty && fr.isEmpty) then
      some (((digitsVal ip : Nat) : Rat) + ((digitsVal fr : Nat) : Rat) / ((10 : Rat) ^ fr.length))
    else Option.none
  | _ => Option.none

/-- Python `float(s)` on a string, restricted to plain signed decimal
literals (the shapes the metadata and the claims exercise); any other
string is not convertible. -/
def parseFloatStr (s : String) : Option Rat :=
  match stripWs s.data with
  | '+' :: rest => parseDecimal rest
  | '-' :: rest => (parseDecimal rest).map (fun q => -q)
  | cs => parseDecimal cs

/-- Python builtin `float(x)`: `TypeError` on `None`, exact conversion of
ints and floats, decimal parsing of strings with `ValueError` on a
non-convertible string. -/
def pyFloat : PyVal → Except PyError Rat
  | PyVal.none => Except.error PyError.typeError
  | PyVal.int n => Except.ok (n : Rat)
  | PyVal.float q => Except.ok q
  | PyVal.str s =>
    match parseFloatStr s with
    | some q => Except.ok q
    | Option.none => Except.error (PyError.valueError "could not convert string to float")

/-- `MediaDownloader._to_float`: `try: return float(duration) except
TypeError: return duration` — only `TypeError` is caught (passing the
original value through); a `ValueError` from a non-numeric string
propagates. -/
def toFloat (duration : PyVal) : Except PyError PyVal :=
  match pyFloat duration with
  | Except.ok q => Except.ok (PyVal.float q)
  | Except.error PyError.typeError => Except.ok duration
  | Except.error e => Except.error e

/-- Characters after the last occurrence of `sep` (accumulator holds the
current segment reversed). -/
def lastSegAux (sep : Char) : List Char → List Char → List Char
  | [], acc => acc.reverse
  | c :: rest, acc =>
    if c = sep then lastSegAux sep rest [] else lastSegAux sep rest (c :: acc)

/-- Python `s.rsplit(sep, 1)[-1]`: the substring after the last occurrence
of `sep`, or all of `s` when `sep` does not occur. -/
def rsplitLast (sep : Char) (s : String) : String :=
  String.mk (lastSegAux sep s.data [])

/-- One element of a `requested_downloads` list.  Each field models the
dict entry of the same key (`ifilename` models the `_filename` key);
`none` models an absent key. -/
structure Descriptor where
  ext : Option String
  filepath : Option String
  filename : Option String
  ifilename : Option String
  width : Option PyVal
  height : Option PyVal
deriving DecidableEq, Repr

/-- One element of a playlist document's `entries` list (the keys the code
reads from an entry). -/
structure Entry where
  title : Option String
  duration : Option PyVal
  requested_downloads : Option (List Descriptor)
deriving DecidableEq, Repr

/-- The metadata document returned by the extraction tool (the keys the
code reads from the root mapping). -/
structure Meta where
  type_ : Option String
  entries : Option (List Entry)
  title : Option String
  duration : Option PyVal
  requested_downloads : Option (List Descriptor)
deriving DecidableEq, Repr

/-- `MediaDownloader._PLAYLIST_TYPE`. -/
def PLAYLIST_TYPE : String := "playlist"

/-- `download_obj.get('ext', '')`. -/
def extD (d : Descriptor) : String := d.ext.getD ""

/-- The in-place normalisation pass 1 performs on its match:
`download_obj['filepath'] = download_obj.get('filepath',
download_obj.get('filename', download_obj['_filename']))`. -/
def normD (d : Descriptor) (ifn : String) : Descriptor :=
  { d with filepath := some (d.filepath.getD (d.filename.getD ifn)) }

/-- First loop of `MediaDownloader._get_requested_video`: return the first
descriptor whose `ext` (defaulting to `''`) differs from the configured
audio format `A`, after assigning its `filepath` key in place.  Python
evaluates the default argument `download_obj['_filename']` eagerly, so the
matched descriptor must carry `_filename` even when `filepath` is present.
The result carries the updated list (the caller's list object is mutated)
together with the selected (updated) descriptor. -/
def getRequestedVideoPass1 (A : String) :
    List Descriptor → Except PyError (Option (List Descriptor × Descriptor))
  | [] => Except.ok Option.none
  | d :: rest =>
    if extD d ≠ A then
      match d.ifilename with
      | Option.none => Except.error (PyError.keyError "_filename")
      | some ifn => Except.ok (some (normD d ifn :: rest, normD d ifn))
    else
      match getRequestedVideoPass1 A rest with
      | Except.error e => Except.error e
      | Except.ok Option.none => Except.ok Option.none
      | Except.ok (some (rest2, sel)) => Except.ok (some (d :: rest2, sel))

/-- Second loop of `MediaDownloader._get_requested_video`: return the first
descriptor whose declared `ext` differs from the actual extension of its
`_filename`, as a copy whose `filepath` is set to
`copy.get('filename', copy['_filename'])`.  The log call evaluates
`download_obj_copy['filepath']` eagerly, so the matched descriptor must
already carry a `filepath` key or a `KeyError` is raised. -/
def getRequestedVideoPass2 :
    List Descriptor → Except PyError (Option Descriptor)
  | [] => Except.ok Option.none
  | d :: rest =>
    match getKey d.ext "ext" with
    | Except.error e => Except.error e
    | Except.ok ex =>
      match getKey d.ifilename "_filename" with
      | Except.error e => Except.error e
      | Except.ok ifn =>
        if ex ≠ rsplitLast '.' ifn then
          match getKey d.filepath "filepath" with
          | Except.error e => Except.error e
          | Except.ok _ =>
            Except.ok (some { d with filepath := some (d.filename.getD ifn) })
        else
          getRequestedVideoPass2 rest

/-- `MediaDownloader._get_requested_video`: pass 1, then (only when pass 1
matched nothing) pass 2; `None` when neither pass matches.  The first
component is the state of the caller's `requested_downloads` list after the
call (pass 1 mutates its match in place, pass 2 only touches a copy). -/
def getRequestedVideo (A : String) (rds : List Descriptor) :
    Except PyError (List Descriptor × Option Descriptor) :=
  match getRequestedVideoPass1 A rds with
  | Except.error e => Except.error e
  | Except.ok (some (rds2, sel)) => Except.ok (rds2, some sel)
  | Except.ok Option.none =>
    match getRequestedVideoPass2 rds with
    | Except.error e => Except.error e
    | Except.ok sel => Except.ok (rds, sel)

/-- `MediaDownloader._get_video_filepath`: on a playlist document operate
on `entries[0]` (an empty `entries` list raises `IndexError` here),
otherwise on the root document; then `requested_video['filepath']` inside
`try ... except (AttributeError, KeyError)` — a `None` result raises an
uncaught `TypeError` ('NoneType' object is not subscriptable), while only
a missing `filepath` key would be converted into the
`ValueError('Video filepath not found')`.  The returned `Meta` is the
state of the caller's document after the in-place mutation. -/
def getVideoFilepath (A : String) (meta : Meta) : Except PyError (Meta × String) :=
  match getKey meta.type_ "_type" with
  | Except.error e => Except.error e
  | Except.ok t =>
    if t = PLAYLIST_TYPE then
      match getKey meta.entries "entries" with
      | Except.error e => Except.error e
      | Except.ok [] => Except.error PyError.indexError
      | Except.ok (ent :: erest) =>
        match getKey ent.requested_downloads "requested_downloads" with
        | Except.error e => Except.error e
        | Except.ok rds =>
          match getRequestedVideo A rds with
          | Except.error e => Except.error e
          | Except.ok (rds2, rv) =>
            let meta2 :=
              { meta with entries := some ({ ent with requested_downloads := some rds2 } :: erest) }
            match rv with
            | Option.none => Except.error PyError.typeError
            | some v =>
              match v.filepath with
              | some fp => Except.ok (meta2, fp)
              | Option.none => Except.error (PyError.valueError "Video filepath not found")
    else
      match getKey meta.requested_downloads "requested_downloads" with
      | Except.error e => Except.error e
      | Except.ok rds =>
        match getRequestedVideo A rds with
        | Except.error e => Except.error e
        | Except.ok (rds2, rv) =>
          let meta2 := { meta with requested_downloads := some rds2 }
          match rv with
          | Option.none => Except.error PyError.typeError
          | some v =>
            match v.filepath with
            | some fp => Except.ok (meta2, fp)
            | Option.none => Except.error (PyError.valueError "Video filepath not found")

/-- `MediaDownloader._get_video_filename`:
`self._get_video_filepath(meta).rsplit('/', maxsplit=1)[-1]`. -/
def getVideoFilename (A : String) (meta : Meta) : Except PyError (Meta × String) :=
  match getVideoFilepath A meta with
  | Except.error e => Except.error e
  | Except.ok (m, fp) => Except.ok (m, rsplitLast '/' fp)

/-- `MediaDownloader._get_video_context`: duration (coerced by `_to_float`)
and the selected descriptor's `width`/`height`.  The playlist branch
explicitly rejects an empty `entries` list with a `ValueError`; a `None`
selected descriptor raises `AttributeError` at `requested_video.get`,
after the duration coercion already ran (Python evaluates the returned
tuple left to right). -/
def getVideoContext (A : String) (meta : Meta) :
    Except PyError (Meta × (PyVal × PyVal × PyVal)) :=
  match getKey meta.type_ "_type" with
  | Except.error e => Except.error e
  | Except.ok t =>
    if t = PLAYLIST_TYPE then
      match getKey meta.entries "entries" with
      | Except.error e => Except.error e
      | Except.ok es =>
        if es.length = 0 then
          Except.error (PyError.valueError "Item said to be downloaded but no entries to process.")
        else
          match es with
          | [] => Except.error PyError.indexError
          | ent :: erest =>
            match getKey ent.requested_downloads "requested_downloads" with
            | Except.error e => Except.error e
            | Except.ok rds =>
              match getRequestedVideo A rds with
              | Except.error e => Except.error e
              | Except.ok (rds2, rv) =>
                let meta2 :=
                  { meta with entries := some ({ ent with requested_downloads := some rds2 } :: erest) }
                match toFloat (ent.duration.getD PyVal.none) with
                | Except.error e => Except.error e
                | Except.ok dur =>
                  match rv with
                  | Option.none => Except.error PyError.attributeError
                  | some v => Except.ok (meta2, (dur, v.width.getD PyVal.none, v.height.getD PyVal.none))
    else
      match getKey meta.requested_downloads "requested_downloads" with
      | Except.error e => Except.error e
      | Except.ok rds =>
        match getRequestedVideo A rds with
        | Except.error e => Except.error e
        | Except.ok (rds2, rv) =>
          let meta2 := { meta with requested_downloads := some rds2 }
          match toFloat (meta.duration.getD PyVal.none) with
          | Except.error e => Except.error e
          | Except.ok dur =>
            match rv with
            | Option.none => Except.error PyError.attributeError
            | some v => Except.ok (meta2, (dur, v.width.getD PyVal.none, v.height.getD PyVal.none))

/-- The filesystem state one `download` call sees: the files (name, size)
of the scratch directory `curr_tmp_dir`, and whether the staging
`destination_dir` exists together with its files.  File sizes stand in for
the external `file_size` utility. -/
structure FS where
  scratch : List (String × Nat)
  destExists : Bool
  dest : List (String × Nat)
deriving DecidableEq, Repr

/-- Size of a named file in a directory listing, if present. -/
def lookupSize (files : List (String × Nat)) (name : String) : Option Nat :=
  (files.find? (fun p => p.1 == name)).map (fun p => p.2)

/-- Write a file into a directory listing, overwriting a same-named file. -/
def setFile (files : List (String × Nat)) (name : String) (sz : Nat) :
    List (String × Nat) :=
  if files.any (fun p => p.1 == name) then
    files.map (fun p => if p.1 == name then (name, sz) else p)
  else files ++ [(name, sz)]

/-- `shutil.move(curr_tmp_dir / src, destination_dir / dst)`: move a
scratch file to an explicit path inside the staging directory (overwriting
an existing file of that name); fails when the source file or the staging
directory does not exist. -/
def fsMoveToPath (fs : FS) (src dst : String) : Except PyError FS :=
  match lookupSize fs.scratch src with
  | Option.none => Except.error PyError.fileNotFoundError
  | some sz =>
    if fs.destExists then
      Except.ok { fs with scratch := fs.scratch.filter (fun p => p.1 != src),
                          dest := setFile fs.dest dst sz }
    else Except.error PyError.fileNotFoundError

/-- `shutil.move(curr_tmp_dir / src, destination_dir)`: move a scratch
file into the staging directory keeping its name; `shutil.move` raises
when the directory already holds a same-named entry. -/
def fsMoveToDir (fs : FS) (src : String) : Except PyError FS :=
  match lookupSize fs.scratch src with
  | Option.none => Except.error PyError.fileNotFoundError
  | some sz =>
    if !fs.destExists then Except.error PyError.fileNotFoundError
    else if fs.dest.any (fun p => p.1 == src) then Except.error PyError.shutilError
    else
      Except.ok { fs with scratch := fs.scratch.filter (fun p => p.1 != src),
                          dest := fs.dest ++ [(src, sz)] }

/-- `file_size(destination_dir / name)` (modelled from the spec: the
file-size measurement utility is an external collaborator). -/
def fileSizeDest (fs : FS) (name : String) : Except PyError Nat :=
  match lookupSize fs.dest name with
  | some sz => Except.ok sz
  | Option.none => Except.error PyError.fileNotFoundError

/-- `remove_dir(destination_dir)` (modelled from the spec: recursive
deletion of the staging directory by an external utility). -/
def remove_dir (fs : FS) : FS := { fs with destExists := false, dest := [] }

/-- Whether `glob.glob('*.{ext}')` matches a file name: the name ends in
`.` followed by the extension, and glob's `*` does not match a leading dot
(hidden files).  The configured extensions are plain strings without glob
metacharacters. -/
def globMatch (ext : String) (name : String) : Bool :=
  (match name.data with
   | [] => false
   | c :: _ => c != '.') &&
  List.isPrefixOf ('.' :: ext.data).reverse name.data.reverse

/-- `MediaDownloader._find_downloaded_file`: look up the verbose name in
`_EXT_TO_NAME` (a `KeyError` for an extension other than the audio format
`A` or thumbnail format `T`), then return the first scratch file matching
`*.{extension}`, or `None`. -/
def findDownloadedFile (A T ext : String) (scratch : List (String × Nat)) :
    Except PyError (Option String) :=
  if ext ≠ A ∧ ext ≠ T then Except.error (PyError.keyError ext)
  else Except.ok ((scratch.find? (fun p => globMatch ext p.1)).map (fun p => p.1))

/-- The `Audio` DTO (`yt_shared.schemas.media.Audio`) as assembled by
`_create_audio_dto`; `directory_path` is the staging directory and is left
implicit in the `FS` model. -/
structure Audio where
  title : String
  original_filename : String
  duration : PyVal
  file_size : Nat
deriving DecidableEq, Repr

/-- The `Video` DTO (`yt_shared.schemas.media.Video`) as assembled by
`_create_video_dto`. -/
structure Video where
  title : String
  original_filename : String
  custom_filename : Option String
  duration : PyVal
  width : PyVal
  height : PyVal
  file_size : Nat
  thumb_name : Option String
deriving DecidableEq, Repr

/-- `MediaDownloader._create_audio_dto`: find the downloaded audio file by
the configured audio extension; a `None` filename makes
`curr_tmp_dir / audio_filename` raise `TypeError` before any relocation;
otherwise move the file into the staging directory and assemble the DTO
with `duration=None` hardcoded and the size measured post-relocation. -/
def createAudioDto (A T : String) (meta : Meta) (fs : FS) :
    Except PyError Audio × FS :=
  match findDownloadedFile A T A fs.scratch with
  | Except.error e => (Except.error e, fs)
  | Except.ok Option.none => (Except.error PyError.typeError, fs)
  | Except.ok (some name) =>
    match fsMoveToDir fs name with
    | Except.error e => (Except.error e, fs)
    | Except.ok fs1 =>
      match getKey meta.title "title" with
      | Except.error e => (Except.error e, fs1)
      | Except.ok title =>
        match fileSizeDest fs1 name with
        | Except.error e => (Except.error e, fs1)
        | Except.ok sz =>
          (Except.ok { title := title, original_filename := name,
                       duration := PyVal.none, file_size := sz }, fs1)

/-- `MediaDownloader._create_video_dto`: derive the video filename, move
the file to the staging directory (under the custom filename when a
non-empty one is supplied), move a thumbnail alongside when one matches
the thumbnail extension, extract the video context, and assemble the DTO
(the steps in source order, each propagating its exception). -/
def createVideoDto (A T : String) (meta : Meta) (custom : Option String) (fs : FS) :
    Except PyError (Video × Meta) × FS :=
  match getVideoFilename A meta with
  | Except.error e => (Except.error e, fs)
  | Except.ok (meta1, videoFilename) =>
    let destName :=
      match custom with
      | some s => if s = "" then videoFilename else s
      | Option.none => videoFilename
    match fsMoveToPath fs videoFilename destName with
    | Except.error e => (Except.error e, fs)
    | Except.ok fs1 =>
      match findDownloadedFile A T T fs1.scratch with
      | Except.error e => (Except.error e, fs1)
      | Except.ok thumbName =>
        match (match thumbName with
               | some tn => fsMoveToDir fs1 tn
               | Option.none => Except.ok fs1) with
        | Except.error e => (Except.error e, fs1)
        | Except.ok fs2 =>
          match getVideoContext A meta1 with
          | Except.error e => (Except.error e, fs2)
          | Except.ok (meta2, ctx) =>
            match getKey meta2.title "title" with
            | Except.error e => (Except.error e, fs2)
            | Except.ok title =>
              match fileSizeDest fs2 destName with
              | Except.error e => (Except.error e, fs2)
              | Except.ok sz =>
                (Except.ok ({ title := title, original_filename := videoFilename,
                              custom_filename := custom, duration := ctx.1,
                              width := ctx.2.1, height := ctx.2.2,
                              file_size := sz, thumb_name := thumbName }, meta2), fs2)

/-- The requested media type (`yt_shared.enums.DownMediaType`). -/
inductive DownMediaType where
  | AUDIO
  | VIDEO
  | AUDIO_VIDEO
deriving DecidableEq, Repr

/-- The `create_dto` closure in `_create_media_dtos`: run a builder and,
on any exception, delete the whole staging directory before re-raising the
original error. -/
def create_dto (run : FS → Except PyError α × FS) (fs : FS) : Except PyError α × FS :=
  match run fs with
  | (Except.ok a, fs2) => (Except.ok a, fs2)
  | (Except.error e, fs2) => (Except.error e, remove_dir fs2)

/-- `MediaDownloader._create_media_dtos`: dispatch on the media type; for
`AUDIO_VIDEO`, Python evaluates `get_audio(), get_video()` left to right,
each independently wrapped in `create_dto`. -/
def createMediaDtos (A T : String) (mt : DownMediaType) (meta : Meta)
    (custom : Option String) (fs : FS) :
    Except PyError (Option Audio × Option Video) × FS :=
  match mt with
  | DownMediaType.AUDIO =>
    match create_dto (createAudioDto A T meta) fs with
    | (Except.ok a, fs2) => (Except.ok (some a, Option.none), fs2)
    | (Except.error e, fs2) => (Except.error e, fs2)
  | DownMediaType.VIDEO =>
    match create_dto (createVideoDto A T meta custom) fs with
    | (Except.ok (v, _), fs2) => (Except.ok (Option.none, some v), fs2)
    | (Except.error e, fs2) => (Except.error e, fs2)
  | DownMediaType.AUDIO_VIDEO =>
    match create_dto (createAudioDto A T meta) fs with
    | (Except.error e, fs2) => (Except.error e, fs2)
    | (Except.ok a, fs1) =>
      match create_dto (createVideoDto A T meta custom) fs1 with
      | (Except.error e, fs2) => (Except.error e, fs2)
      | (Except.ok (v, _), fs2) => (Except.ok (some a, some v), fs2)

/-- The tail of `MediaDownloader._download` once the extraction tool has
produced the metadata and the scratch files (lines 90–101): create the
randomly named staging directory with `destination_dir.mkdir()` and run
`_create_media_dtos` on it. -/
def downloadTail (A T : String) (mt : DownMediaType) (meta : Meta)
    (scratch : List (String × Nat)) (custom : Option String) :
    Except PyError (Option Audio × Option Video) × FS :=
  let fs1 : FS := { scratch := scratch, destExists := true, dest := [] }
  createMediaDtos A T mt meta custom fs1

/-- Modelled from the spec: "a single-item document built from that entry"
(Testable Properties).  The single-item document carrying the entry's
scalar fields and `requested_downloads` directly, with a given
non-playlist `_type`. -/
def singleDocOfEntry (t : String) (e : Entry) : Meta :=
  { type_ := some t, entries := Option.none, title := e.title,
    duration := e.duration, requested_downloads := e.requested_downloads }

/-! Concrete inputs used by the per-claim witnesses and counterexamples.
Throughout, the configured audio format is instantiated with `"mp3"` and
the thumbnail format with `"jpg"`. -/

/-- A video descriptor whose `filepath` is already populated. -/
def c1d : Descriptor :=
  { ext := some "mp4", filepath := some "dl/v.mp4", filename := Option.none,
    ifilename := some "dl/v.mp4", width := some (PyVal.int 640),
    height := some (PyVal.int 360) }

/-- A well-formed single-item document with one video descriptor. -/
def c1meta : Meta :=
  { type_ := some "video", entries := Option.none, title := some "T",
    duration := some (PyVal.int 5), requested_downloads := some [c1d] }

/-- Scratch directory holding the downloaded video file. -/
def c1fs : FS := { scratch := [("v.mp4", 100)], destExists := true, dest := [] }

/-- Filesystem state after the video file was staged. -/
def c1fs2 : FS := { scratch := [], destExists := true, dest := [("v.mp4", 100)] }

/-- The `Video` DTO produced by resolving `c1meta` over `c1fs`. -/
def c1vid : Video :=
  { title := "T", original_filename := "v.mp4", custom_filename := Option.none,
    duration := PyVal.float 5, width := PyVal.int 640, height := PyVal.int 360,
    file_size := 100, thumb_name := Option.none }

/-- A playlist document with an empty `entries` sequence. -/
def c2meta : Meta :=
  { type_ := some "playlist", entries := some [], title := some "x",
    duration := Option.none, requested_downloads := Option.none }

/-- A single-item document whose `requested_downloads` key is absent, so
the video build fails after the audio build already staged its file. -/
def c4meta : Meta :=
  { type_ := some "video", entries := Option.none, title := some "T",
    duration := Option.none, requested_downloads := Option.none }

/-- Scratch directory holding only the converted audio file. -/
def c4fs : FS := { scratch := [("a.mp3", 7)], destExists := true, dest := [] }

/-- State after the audio file was staged. -/
def c4fs1 : FS := { scratch := [], destExists := true, dest := [("a.mp3", 7)] }

/-- The `Audio` DTO produced from `c4meta` over `c4fs`. -/
def c4a : Audio :=
  { title := "T", original_filename := "a.mp3", duration := PyVal.none, file_size := 7 }

/-- A descriptor matched by neither pass: its `ext` equals the audio
format and also the actual extension of its `_filename`. -/
def c5d : Descriptor :=
  { ext := some "mp3", filepath := Option.none, filename := Option.none,
    ifilename := some "a.mp3", width := Option.none, height := Option.none }

/-- A single-item document on which both descriptor passes fail. -/
def c5meta : Meta :=
  { type_ := some "video", entries := Option.none, title := some "T",
    duration := Option.none, requested_downloads := some [c5d] }

/-- A playlist entry whose descriptors are matched by neither pass. -/
def c5ent : Entry :=
  { title := some "T", duration := Option.none, requested_downloads := some [c5d] }

/-- A playlist document on which both descriptor passes fail. -/
def c5Pmeta : Meta :=
  { type_ := some "playlist", entries := some [c5ent], title := some "PT",
    duration := Option.none, requested_downloads := Option.none }

/-- A fallback-pass match that carries no `filepath` key: the eager log
argument `download_obj_copy['filepath']` raises `KeyError`. -/
def c6dCx : Descriptor :=
  { ext := some "mp3", filepath := Option.none, filename := Option.none,
    ifilename := some "v.mp4", width := Option.none, height := Option.none }

/-- A fallback-pass match carrying both `filepath` and `filename`. -/
def c6dW : Descriptor :=
  { ext := some "mp3", filepath := some "old", filename := some "f.mp4",
    ifilename := some "v.mp4", width := Option.none, height := Option.none }

/-- A fallback-pass match whose existing `filepath` differs from its
`filename`. -/
def c7d : Descriptor :=
  { ext := some "mp3", filepath := some "keep/old.mp4", filename := some "new.mp4",
    ifilename := some "v.mp4", width := Option.none, height := Option.none }

/-- A document for the audio-resolution scenarios. -/
def c8meta : Meta :=
  { type_ := some "video", entries := Option.none, title := some "T",
    duration := Option.none, requested_downloads := Option.none }

/-- A scratch directory without any file in the audio format. -/
def c8fsNo : FS := { scratch := [("x.txt", 1)], destExists := true, dest := [] }

/-- A scratch directory holding a converted audio file. -/
def c8fsYes : FS := { scratch := [("a.mp3", 7)], destExists := true, dest := [] }

/-- State after the audio file of `c8fsYes` was staged. -/
def c8fs1 : FS := { scratch := [], destExists := true, dest := [("a.mp3", 7)] }

/-- The `Audio` DTO produced from `c8meta` over `c8fsYes`. -/
def c8a : Audio :=
  { title := "T", original_filename := "a.mp3", duration := PyVal.none, file_size := 7 }

/-- A video descriptor inside a playlist entry. -/
def c9d : Descriptor :=
  { ext := some "mp4", filepath := some "x/y.mp4", filename := Option.none,
    ifilename := some "x/y.mp4", width := some (PyVal.int 1),
    height := some (PyVal.int 2) }

/-- A playlist entry with one video descriptor. -/
def c9e : Entry :=
  { title := some "ET", duration := some (PyVal.int 3),
    requested_downloads := some [c9d] }

/-- A playlist document with exactly the entry `c9e`. -/
def c9P : Meta :=
  { type_ := some "playlist", entries := some [c9e], title := some "PT",
    duration := Option.none, requested_downloads := Option.none }

/-- A primary-pass match whose `filepath` is already present: the in-place
assignment rewrites the same value. -/
def c10d : Descriptor :=
  { ext := some "mp4", filepath := some "p/a.mp4", filename := Option.none,
    ifilename := some "i.mp4", width := Option.none, height := Option.none }

/-- A primary-pass match without a `filepath` key: the in-place assignment
observably modifies the document. -/
def c10w : Descriptor :=
  { ext := some "mp4", filepath := Option.none, filename := Option.none,
    ifilename := some "i.mp4", width := Option.none, height := Option.none }

theorem pass1_none (A : String) (rds : List Descriptor)
    (h : ∀ x ∈ rds, extD x = A) :
    getRequestedVideoPass1 A rds = Except.ok Option.none := by
  induction rds with
  | nil => rfl
  | cons x xs ih =>
    have hx : extD x = A := h x (List.mem_cons_self x xs)
    simp [getRequestedVideoPass1, hx,
          ih (fun y hy => h y (List.mem_cons_of_mem x hy))]

theorem pass1_found (A : String) (pre post : List Descriptor) (d : Descriptor) (ifn : String)
    (hpre : ∀ x ∈ pre, extD x = A) (hd : extD d ≠ A) (hifn : d.ifilename = some ifn) :
    getRequestedVideoPass1 A (pre ++ d :: post) =
      Except.ok (some (pre ++ normD d ifn :: post, normD d ifn)) := by
  induction pre with
  | nil => simp [getRequestedVideoPass1, hd, hifn]
  | cons x xs ih =>
    have hx : extD x = A := hpre x (List.mem_cons_self x xs)
    simp [getRequestedVideoPass1, hx,
          ih (fun y hy => hpre y (List.mem_cons_of_mem x hy))]

theorem pass2_found (pre post : List Descriptor) (d : Descriptor) (ex ifn : String)
    (hpre : ∀ x ∈ pre,
      x.ifilename.isSome ∧ x.ext = some (rsplitLast '.' (x.ifilename.getD "")))
    (hex : d.ext = some ex) (hifn : d.ifilename = some ifn)
    (hne : ex ≠ rsplitLast '.' ifn) (hfp : d.filepath.isSome) :
    getRequestedVideoPass2 (pre ++ d :: post) =
      Except.ok (some { d with filepath := some (d.filename.getD ifn) }) := by
  induction pre with
  | nil =>
    obtain ⟨fp, hfp2⟩ := Option.isSome_iff_exists.mp hfp
    simp [getRequestedVideoPass2, getKey, hex, hifn, hne, hfp2]
  | cons x xs ih =>
    obtain ⟨h1, h2⟩ := hpre x (List.mem_cons_self x xs)
    obtain ⟨i2, hi2⟩ := Option.isSome_iff_exists.mp h1
    rw [hi2] at h2
    simp only [Option.getD_some] at h2
    simp [getRequestedVideoPass2, getKey, hi2, h2,
          ih (fun y hy => hpre y (List.mem_cons_of_mem x hy))]

theorem grv_pass1 (A : String) (pre post : List Descriptor) (d : Descriptor) (ifn : String)
    (hpre : ∀ x ∈ pre, extD x = A) (hd : extD d ≠ A) (hifn : d.ifilename = some ifn) :
    getRequestedVideo A (pre ++ d :: post) =
      Except.ok (pre ++ normD d ifn :: post, some (normD d ifn)) := by
  simp [getRequestedVideo, pass1_found A pre post d ifn hpre hd hifn]

theorem grv_pass2 (A : String) (pre post : List Descriptor) (d : Descriptor) (ifn : String)
    (hall : ∀ x ∈ pre ++ d :: post, x.ext = some A)
    (hpre : ∀ x ∈ pre, x.ifilename.isSome ∧ A = rsplitLast '.' (x.ifilename.getD ""))
    (hifn : d.ifilename = some ifn)
    (hne : A ≠ rsplitLast '.' ifn) (hfp : d.filepath.isSome) :
    getRequestedVideo A (pre ++ d :: post) =
      Except.ok (pre ++ d :: post,
                 some { d with filepath := some (d.filename.getD ifn) }) := by
  have h1 : getRequestedVideoPass1 A (pre ++ d :: post) = Except.ok Option.none :=
    pass1_none A _ (fun x hx => by rw [extD, hall x hx]; rfl)
  have hex : d.ext = some A :=
    hall d (List.mem_append_right _ (List.mem_cons_self d post))
  have h2 := pass2_found pre post d A ifn
    (fun x hx =>
      ⟨(hpre x hx).1, by rw [hall x (List.mem_append_left _ hx), (hpre x hx).2]⟩)
    hex hifn hne hfp
  simp [getRequestedVideo, h1, h2]

theorem gvfp_single (A : String) (meta : Meta) (t : String)
    (pre post : List Descriptor) (d : Descriptor) (ifn : String)
    (htype : meta.type_ = some t) (hnp : t ≠ PLAYLIST_TYPE)
    (hrds : meta.requested_downloads = some (pre ++ d :: post))
    (hpre : ∀ x ∈ pre, extD x = A) (hd : extD d ≠ A) (hifn : d.ifilename = some ifn) :
    getVideoFilepath A meta =
      Except.ok ({ meta with requested_downloads := some (pre ++ normD d ifn :: post) },
                 d.filepath.getD (d.filename.getD ifn)) := by
  simp [getVideoFilepath, getKey, htype, hnp, hrds,
        grv_pass1 A pre post d ifn hpre hd hifn, normD]

theorem gvfn_single (A : String) (meta : Meta) (t : String)
    (pre post : List Descriptor) (d : Descriptor) (ifn : String)
    (htype : meta.type_ = some t) (hnp : t ≠ PLAYLIST_TYPE)
    (hrds : meta.requested_downloads = some (pre ++ d :: post))
    (hpre : ∀ x ∈ pre, extD x = A) (hd : extD d ≠ A) (hifn : d.ifilename = some ifn) :
    getVideoFilename A meta =
      Except.ok ({ meta with requested_downloads := some (pre ++ normD d ifn :: post) },
                 rsplitLast '/' (d.filepath.getD (d.filename.getD ifn))) := by
  simp [getVideoFilename,
        gvfp_single A meta t pre post d ifn htype hnp hrds hpre hd hifn]

theorem createVideoDto_ok_name (A T : String) (meta m1 m2 : Meta) (custom : Option String)
    (fs fs2 : FS) (v : Video) (vf : String)
    (hgvf : getVideoFilename A meta = Except.ok (m1, vf))
    (hrun : createVideoDto A T meta custom fs = (Except.ok (v, m2), fs2)) :
    v.original_filename = vf := by
  simp only [createVideoDto, hgvf] at hrun
  repeat' split at hrun
  all_goals simp only [Prod.mk.injEq, Except.ok.injEq, reduceCtorEq, false_and] at hrun
  obtain ⟨⟨hv, -⟩, -⟩ := hrun
  rw [← hv]

theorem gvfp_playlist_singleton (A t : String) (e : Entry) (P : Meta)
    (ht : t ≠ PLAYLIST_TYPE)
    (hP : P.type_ = some PLAYLIST_TYPE) (hPe : P.entries = some [e]) :
    (getVideoFilepath A P).map (fun r => r.2) =
      (getVideoFilepath A (singleDocOfEntry t e)).map (fun r => r.2) := by
  simp only [getVideoFilepath, getKey, hP, hPe, singleDocOfEntry, if_neg ht, if_true,
             eq_self_iff_true]
  cases hrd : e.requested_downloads with
  | none => rfl
  | some rds =>
    dsimp only
    cases hgv : getRequestedVideo A rds with
    | error e2 => rfl
    | ok pr =>
      obtain ⟨rds2, rv⟩ := pr
      dsimp only
      cases rv with
      | none => rfl
      | some v =>
        dsimp only
        cases v.filepath <;> rfl

theorem gvfn_map_eq (A : String) (m1 m2 : Meta)
    (h : (getVideoFilepath A m1).map (fun r => r.2) =
      (getVideoFilepath A m2).map (fun r => r.2)) :
    (getVideoFilename A m1).map (fun r => r.2) =
      (getVideoFilename A m2).map (fun r => r.2) := by
  unfold getVideoFilename
  cases h1 : getVideoFilepath A m1 with
  | error e =>
    cases h2 : getVideoFilepath A m2 with
    | error e2 => rw [h1, h2] at h; simp only [Except.map] at h ⊢; simp_all
    | ok p2 => rw [h1, h2] at h; simp [Except.map] at h
  | ok p1 =>
    cases h2 : getVideoFilepath A m2 with
    | error e2 => rw [h1, h2] at h; simp [Except.map] at h
    | ok p2 => rw [h1, h2] at h; simp only [Except.map] at h ⊢; simp_all

theorem gvctx_playlist_singleton (A t : String) (e : Entry) (P : Meta)
    (ht : t ≠ PLAYLIST_TYPE)
    (hP : P.type_ = some PLAYLIST_TYPE) (hPe : P.entries = some [e]) :
    (getVideoContext A P).map (fun r => r.2) =
      (getVideoContext A (singleDocOfEntry t e)).map (fun r => r.2) := by
  simp only [getVideoContext, getKey, hP, hPe, singleDocOfEntry, if_neg ht, if_true,
             eq_self_iff_true, List.length_cons, List.length_nil, Nat.zero_add,
             one_ne_zero, if_false]
  cases hrd : e.requested_downloads with
  | none => rfl
  | some rds =>
    dsimp only
    cases hgv : getRequestedVideo A rds with
    | error e2 => rfl
    | ok pr =>
      obtain ⟨rds2, rv⟩ := pr
      dsimp only
      cases htf : toFloat (e.duration.getD PyVal.none) with
      | error e2 => cases rv <;> rfl
      | ok dur =>
        dsimp only
        cases rv <;> rfl

/-- C1: for every non-empty, well-formed single-item metadata document
(every descriptor has an internal filename, and some descriptor's extension
differs from the configured audio extension), resolving VIDEO selects the
first descriptor in `requested_downloads` order whose extension is not the
configured audio extension, normalizes its filepath by the priority
filepath, then filename, then internal filename, and the returned `Video`'s
`original_filename` equals the final '/'-separated segment of that
normalized filepath. -/
theorem c1_primary_pass_original_filename (A T : String) (meta : Meta) (t : String)
    (custom : Option String) (fs fs2 : FS) (m2 : Meta) (v : Video)
    (pre post : List Descriptor) (d : Descriptor) (ifn : String)
    (htype : meta.type_ = some t) (hnp : t ≠ PLAYLIST_TYPE)
    (hrds : meta.requested_downloads = some (pre ++ d :: post))
    (hifnAll : ∀ x ∈ pre ++ d :: post, x.ifilename.isSome)
    (hpre : ∀ x ∈ pre, extD x = A) (hd : extD d ≠ A)
    (hifn : d.ifilename = some ifn)
    (hrun : createVideoDto A T meta custom fs = (Except.ok (v, m2), fs2)) :
    v.original_filename = rsplitLast '/' (d.filepath.getD (d.filename.getD ifn)) :=
  createVideoDto_ok_name A T meta _ m2 custom fs fs2 v _
    (gvfn_single A meta t pre post d ifn htype hnp hrds hpre hd hifn) hrun

/-- C1 witness: the theorem applied to the concrete document `c1meta` over
the scratch state `c1fs`, whose video resolution succeeds with `c1vid`. -/
theorem c1_primary_pass_original_filename_witness :
    c1vid.original_filename =
      rsplitLast '/' (c1d.filepath.getD (c1d.filename.getD "dl/v.mp4")) :=
  c1_primary_pass_original_filename "mp3" "jpg" c1meta "video" Option.none c1fs
    c1fs2 c1meta c1vid [] [] c1d "dl/v.mp4" rfl (by decide) rfl (by decide)
    (by simp) (by decide) rfl rfl

/-- C2 (amended): VIDEO resolution of a playlist-shaped document with an
empty `entries` sequence always fails, but with an `IndexError` raised by
`entries[0]` during filepath lookup — the explicit
`ValueError('Item said to be downloaded but no entries to process.')`
check in `_get_video_context` runs after the filename derivation and is
unreachable for this input; the rolled-back staging directory is removed.
AUDIO-only resolution never consults `entries`: its result is unchanged
under any replacement of the document's `entries` field. -/
theorem c2_empty_playlist_index_error (A T : String) (meta : Meta)
    (custom : Option String) (fs : FS)
    (h1 : meta.type_ = some PLAYLIST_TYPE) (h2 : meta.entries = some []) :
    createMediaDtos A T DownMediaType.VIDEO meta custom fs =
      (Except.error PyError.indexError, remove_dir fs) ∧
    (∀ es : Option (List Entry),
      createMediaDtos A T DownMediaType.AUDIO { meta with entries := es } custom fs =
        createMediaDtos A T DownMediaType.AUDIO meta custom fs) := by
  constructor
  · simp [createMediaDtos, create_dto, createVideoDto, getVideoFilename,
          getVideoFilepath, getKey, h1, h2]
  · intro es
    rfl

/-- C2 witness: the amended theorem applied to the concrete empty-entries
playlist document `c2meta`; the second conjunct is instantiated by
replacing the `entries` field with an absent key. -/
theorem c2_empty_playlist_index_error_witness :
    createMediaDtos "mp3" "jpg" DownMediaType.VIDEO c2meta Option.none
        { scratch := [("a.mp3", 5)], destExists := true, dest := [] } =
      (Except.error PyError.indexError,
       remove_dir { scratch := [("a.mp3", 5)], destExists := true, dest := [] }) ∧
    createMediaDtos "mp3" "jpg" DownMediaType.AUDIO
        { c2meta with entries := Option.none } Option.none
        { scratch := [("a.mp3", 5)], destExists := true, dest := [] } =
      createMediaDtos "mp3" "jpg" DownMediaType.AUDIO c2meta Option.none
        { scratch := [("a.mp3", 5)], destExists := true, dest := [] } :=
  ⟨(c2_empty_playlist_index_error "mp3" "jpg" c2meta Option.none
      { scratch := [("a.mp3", 5)], destExists := true, dest := [] } rfl rfl).1,
   (c2_empty_playlist_index_error "mp3" "jpg" c2meta Option.none
      { scratch := [("a.mp3", 5)], destExists := true, dest := [] } rfl rfl).2
     Option.none⟩

/-- C2 counterexample: on the empty-entries playlist `c2meta`, VIDEO
resolution fails with `IndexError`, which is not the claimed
`DataIntegrityError` (the `ValueError` the code reserves for this case). -/
theorem c2_empty_playlist_counterexample :
    createMediaDtos "mp3" "jpg" DownMediaType.VIDEO c2meta Option.none
        { scratch := [("b.mp3", 5)], destExists := true, dest := [] } =
      (Except.error PyError.indexError,
       { scratch := [("b.mp3", 5)], destExists := false, dest := [] }) ∧
    PyError.indexError ≠
      PyError.valueError "Item said to be downloaded but no entries to process." :=
  ⟨rfl, by decide⟩

/-- C3 (amended): the duration coercion maps `"12.5"` to `12.5`, `None` to
`None`, and `7` to `7.0`, but raises a `ValueError` on a non-numeric
string such as `"bad"` — only `TypeError` is caught, so the value is not
passed through. -/
theorem c3_duration_coercion_amended :
    toFloat (PyVal.str "12.5") = Except.ok (PyVal.float (25 / 2)) ∧
    toFloat PyVal.none = Except.ok PyVal.none ∧
    toFloat (PyVal.int 7) = Except.ok (PyVal.float 7) ∧
    toFloat (PyVal.str "bad") =
      Except.error (PyError.valueError "could not convert string to float") := by
  refine ⟨?_, rfl, ?_, rfl⟩
  · have h : parseFloatStr "12.5" =
        some (((12 : Nat) : Rat) + ((5 : Nat) : Rat) / 10 ^ 1) := rfl
    simp only [toFloat, pyFloat, h]
    norm_num
  · simp only [toFloat, pyFloat]
    norm_num

/-- C3 counterexample: on the non-numeric string `"bad"`, the duration
coercion raises a `ValueError` instead of passing the value through. -/
theorem c3_bad_string_counterexample :
    toFloat (PyVal.str "bad") =
      Except.error (PyError.valueError "could not convert string to float") := rfl

/-- C4: for every AUDIO_VIDEO resolution in which the video build raises
after the audio build already relocated its file into the staging
directory, the entire staging directory is deleted (zero files remain,
the directory is gone) and the original error propagates unchanged. -/
theorem c4_audio_video_rollback (A T : String) (meta : Meta) (custom : Option String)
    (fs fs1 fs2 : FS) (a : Audio) (e : PyError)
    (haud : createAudioDto A T meta fs = (Except.ok a, fs1))
    (hmoved : fs1.dest ≠ [])
    (hvid : createVideoDto A T meta custom fs1 = (Except.error e, fs2)) :
    createMediaDtos A T DownMediaType.AUDIO_VIDEO meta custom fs =
      (Except.error e, remove_dir fs2) ∧
    (remove_dir fs2).dest = [] ∧ (remove_dir fs2).destExists = false := by
  refine ⟨?_, rfl, rfl⟩
  simp [createMediaDtos, create_dto, haud, hvid]

/-- C4 witness: over `c4fs` the audio build stages `a.mp3` and the video
build then fails with a `KeyError`; the combined resolution returns that
error with the staging directory fully removed. -/
theorem c4_audio_video_rollback_witness :
    createMediaDtos "mp3" "jpg" DownMediaType.AUDIO_VIDEO c4meta Option.none c4fs =
      (Except.error (PyError.keyError "requested_downloads"), remove_dir c4fs1) ∧
    (remove_dir c4fs1).dest = [] ∧ (remove_dir c4fs1).destExists = false :=
  c4_audio_video_rollback "mp3" "jpg" c4meta Option.none c4fs c4fs1 c4fs1 c4a
    (PyError.keyError "requested_downloads") rfl (by decide) rfl

/-- C5 (amended): when neither pass of the requested-video-descriptor
algorithm yields a descriptor — for single-item and playlist-shaped
documents alike — video resolution fails with a `TypeError`
(subscripting the `None` result; the `except (AttributeError, KeyError)`
handler that would produce the `ValueError('Video filepath not found')` is
unreachable), and the staging directory — created by `_download` before
resolution — is deleted again by the rollback, so none remains. -/
theorem c5_no_descriptor_type_error (A T : String) (meta : Meta) (t : String)
    (custom : Option String) (scratch : List (String × Nat)) (rds rds2 : List Descriptor)
    (ent : Entry) (erest : List Entry)
    (htype : meta.type_ = some t)
    (hshape :
      (t ≠ PLAYLIST_TYPE ∧ meta.requested_downloads = some rds) ∨
      (t = PLAYLIST_TYPE ∧ meta.entries = some (ent :: erest) ∧
        ent.requested_downloads = some rds))
    (hrv : getRequestedVideo A rds = Except.ok (rds2, Option.none)) :
    downloadTail A T DownMediaType.VIDEO meta scratch custom =
      (Except.error PyError.typeError,
       { scratch := scratch, destExists := false, dest := [] }) := by
  rcases hshape with ⟨ht, h3⟩ | ⟨ht, h3, h4⟩
  · simp [downloadTail, createMediaDtos, create_dto, createVideoDto, getVideoFilename,
          getVideoFilepath, getKey, htype, ht, h3, hrv, remove_dir]
  · simp [downloadTail, createMediaDtos, create_dto, createVideoDto, getVideoFilename,
          getVideoFilepath, getKey, htype, ht, h3, h4, hrv, remove_dir]

/-- C5 witness: the amended theorem applied to the single-item document
`c5meta` and to the playlist document `c5Pmeta`, both of whose descriptor
lists are matched by neither pass. -/
theorem c5_no_descriptor_type_error_witness :
    downloadTail "mp3" "jpg" DownMediaType.VIDEO c5meta [("a.mp3", 5)] Option.none =
      (Except.error PyError.typeError,
       { scratch := [("a.mp3", 5)], destExists := false, dest := [] }) ∧
    downloadTail "mp3" "jpg" DownMediaType.VIDEO c5Pmeta [("a.mp3", 5)] Option.none =
      (Except.error PyError.typeError,
       { scratch := [("a.mp3", 5)], destExists := false, dest := [] }) :=
  ⟨c5_no_descriptor_type_error "mp3" "jpg" c5meta "video" Option.none [("a.mp3", 5)]
     [c5d] [c5d] c5ent [] rfl (Or.inl ⟨by decide, rfl⟩) rfl,
   c5_no_descriptor_type_error "mp3" "jpg" c5Pmeta "playlist" Option.none [("a.mp3", 5)]
     [c5d] [c5d] c5ent [] rfl (Or.inr ⟨rfl, rfl, rfl⟩) rfl⟩

/-- C5 counterexample: on `c5meta` the failure is a `TypeError`, not the
claimed `ValueError`-class error "video filepath not found". -/
theorem c5_no_descriptor_counterexample :
    downloadTail "mp3" "jpg" DownMediaType.VIDEO c5meta [("b.mp3", 5)] Option.none =
      (Except.error PyError.typeError,
       { scratch := [("b.mp3", 5)], destExists := false, dest := [] }) ∧
    PyError.typeError ≠ PyError.valueError "Video filepath not found" :=
  ⟨rfl, by decide⟩

/-- C6 (amended): for every `requested_downloads` list in which every
descriptor's `ext` equals the configured audio extension (primary pass
empty), every descriptor carries an internal filename, some descriptor's
declared extension differs from the actual extension of its internal
filename, and the first such descriptor also carries a `filepath` key
(required because the log call subscripts it eagerly), the fallback pass
returns a copy of that first descriptor (its `filepath` replaced by its
`filename`, else its internal filename) and the original list is
unmodified. -/
theorem c6_fallback_copy_no_mutation (A : String) (pre post : List Descriptor)
    (d : Descriptor) (ifn : String)
    (hall : ∀ x ∈ pre ++ d :: post, x.ext = some A)
    (hifnAll : ∀ x ∈ pre ++ d :: post, x.ifilename.isSome)
    (hpre : ∀ x ∈ pre, A = rsplitLast '.' (x.ifilename.getD ""))
    (hifn : d.ifilename = some ifn)
    (hne : A ≠ rsplitLast '.' ifn) (hfp : d.filepath.isSome) :
    getRequestedVideo A (pre ++ d :: post) =
      Except.ok (pre ++ d :: post,
                 some { d with filepath := some (d.filename.getD ifn) }) :=
  grv_pass2 A pre post d ifn hall
    (fun x hx => ⟨hifnAll x (List.mem_append_left _ hx), hpre x hx⟩) hifn hne hfp

/-- C6 witness: the amended theorem applied to the one-descriptor list
`[c6dW]` (audio-format `ext`, mismatching `_filename`, `filepath`
present). -/
theorem c6_fallback_copy_no_mutation_witness :
    getRequestedVideo "mp3" [c6dW] =
      Except.ok ([c6dW],
                 some { c6dW with filepath := some (c6dW.filename.getD "v.mp4") }) :=
  c6_fallback_copy_no_mutation "mp3" [] [] c6dW "v.mp4" (by decide) (by decide)
    (by simp) rfl (by decide) (by decide)

/-- C6 counterexample: when the first mismatching descriptor carries no
`filepath` key, the fallback pass raises `KeyError('filepath')` (from the
eagerly evaluated log argument) instead of returning a copy. -/
theorem c6_missing_filepath_counterexample :
    getRequestedVideo "mp3" [c6dCx] = Except.error (PyError.keyError "filepath") := rfl

/-- C7 (amended): the fallback pass does not reuse an existing `filepath`:
the returned copy's `filepath` is set to the descriptor's `filename` if
present, else its internal filename — the pre-existing `filepath` value is
ignored (unlike the primary pass, which prefers it). -/
theorem c7_fallback_filepath_from_filename (pre post : List Descriptor)
    (d : Descriptor) (ex ifn : String)
    (hpre : ∀ x ∈ pre,
      x.ifilename.isSome ∧ x.ext = some (rsplitLast '.' (x.ifilename.getD "")))
    (hex : d.ext = some ex) (hifn : d.ifilename = some ifn)
    (hne : ex ≠ rsplitLast '.' ifn) (hfp : d.filepath.isSome) :
    getRequestedVideoPass2 (pre ++ d :: post) =
      Except.ok (some { d with filepath := some (d.filename.getD ifn) }) ∧
    ({ d with filepath := some (d.filename.getD ifn) } : Descriptor).filepath =
      some (d.filename.getD ifn) :=
  ⟨pass2_found pre post d ex ifn hpre hex hifn hne hfp, rfl⟩

/-- C7 witness: the amended theorem applied to `[c7d]`. -/
theorem c7_fallback_filepath_from_filename_witness :
    getRequestedVideoPass2 [c7d] =
      Except.ok (some { c7d with filepath := some (c7d.filename.getD "v.mp4") }) ∧
    ({ c7d with filepath := some (c7d.filename.getD "v.mp4") } : Descriptor).filepath =
      some (c7d.filename.getD "v.mp4") :=
  c7_fallback_filepath_from_filename [] [] c7d "mp3" "v.mp4" (by simp) rfl rfl
    (by decide) (by decide)

/-- C7 counterexample: `c7d` already carries `filepath = "keep/old.mp4"`,
yet the copy returned by the fallback pass carries
`filepath = "new.mp4"` (its `filename`), not the existing value. -/
theorem c7_existing_filepath_counterexample :
    getRequestedVideoPass2 [c7d] =
      Except.ok (some { c7d with filepath := some "new.mp4" }) ∧
    ({ c7d with filepath := some "new.mp4" } : Descriptor).filepath ≠ c7d.filepath ∧
    c7d.filepath = some "keep/old.mp4" :=
  ⟨rfl, by decide, rfl⟩

/-- C8 (amended): audio resolution searches the scratch directory for a
file matching the configured audio output extension; when no file matches,
the `None` filename makes `curr_tmp_dir / audio_filename` raise a
`TypeError` before any relocation is attempted (not a filesystem error);
and every successful `Audio` DTO carries `duration = None`, never a value
derived from the metadata document. -/
theorem c8_audio_search_and_duration (A T : String) (meta : Meta) (fs fs2 : FS) (a : Audio) :
    ((∀ p ∈ fs.scratch, globMatch A p.1 = false) →
      createAudioDto A T meta fs = (Except.error PyError.typeError, fs)) ∧
    (createAudioDto A T meta fs = (Except.ok a, fs2) → a.duration = PyVal.none) := by
  constructor
  · intro h
    have hfind : fs.scratch.find? (fun p => globMatch A p.1) = Option.none := by
      rw [List.find?_eq_none]
      intro p hp
      simp [h p hp]
    simp [createAudioDto, findDownloadedFile, hfind]
  · intro h
    simp only [createAudioDto] at h
    repeat' split at h
    all_goals simp only [Prod.mk.injEq, Except.ok.injEq, reduceCtorEq, false_and] at h
    obtain ⟨hv, -⟩ := h
    rw [← hv]

/-- C8 witness: over `c8fsNo` (no `.mp3` file) the audio build fails with
`TypeError`; over `c8fsYes` it succeeds with the DTO `c8a`, whose duration
is `None`. -/
theorem c8_audio_search_and_duration_witness :
    createAudioDto "mp3" "jpg" c8meta c8fsNo = (Except.error PyError.typeError, c8fsNo) ∧
    c8a.duration = PyVal.none :=
  ⟨(c8_audio_search_and_duration "mp3" "jpg" c8meta c8fsNo c8fs1 c8a).1 (by decide),
   (c8_audio_search_and_duration "mp3" "jpg" c8meta c8fsYes c8fs1 c8a).2 rfl⟩

/-- C8 counterexample: with no matching audio file in the scratch
directory, the failure is a `TypeError` (raised while joining the path
with `None`), not the claimed underlying filesystem error. -/
theorem c8_no_audio_file_counterexample :
    createAudioDto "mp3" "jpg" c8meta c8fsNo = (Except.error PyError.typeError, c8fsNo) ∧
    PyError.typeError ≠ PyError.fileNotFoundError :=
  ⟨rfl, by decide⟩

/-- C9: for every playlist-shaped document with exactly one entry, video
resolution — descriptor selection, filepath and filename derivation, and
the extracted duration, width and height — behaves identically (same
values, same errors) to resolving the single-item document built from
that entry. -/
theorem c9_playlist_singleton_equiv (A t : String) (e : Entry) (P : Meta)
    (ht : t ≠ PLAYLIST_TYPE)
    (hP : P.type_ = some PLAYLIST_TYPE) (hPe : P.entries = some [e]) :
    (getVideoFilepath A P).map (fun r => r.2) =
      (getVideoFilepath A (singleDocOfEntry t e)).map (fun r => r.2) ∧
    (getVideoFilename A P).map (fun r => r.2) =
      (getVideoFilename A (singleDocOfEntry t e)).map (fun r => r.2) ∧
    (getVideoContext A P).map (fun r => r.2) =
      (getVideoContext A (singleDocOfEntry t e)).map (fun r => r.2) :=
  ⟨gvfp_playlist_singleton A t e P ht hP hPe,
   gvfn_map_eq A P (singleDocOfEntry t e) (gvfp_playlist_singleton A t e P ht hP hPe),
   gvctx_playlist_singleton A t e P ht hP hPe⟩

/-- C9 witness: the theorem applied to the concrete one-entry playlist
`c9P` and the single-item document built from its entry `c9e`. -/
theorem c9_playlist_singleton_equiv_witness :
    (getVideoFilepath "mp3" c9P).map (fun r => r.2) =
      (getVideoFilepath "mp3" (singleDocOfEntry "video" c9e)).map (fun r => r.2) ∧
    (getVideoFilename "mp3" c9P).map (fun r => r.2) =
      (getVideoFilename "mp3" (singleDocOfEntry "video" c9e)).map (fun r => r.2) ∧
    (getVideoContext "mp3" c9P).map (fun r => r.2) =
      (getVideoContext "mp3" (singleDocOfEntry "video" c9e)).map (fun r => r.2) :=
  c9_playlist_singleton_equiv "mp3" "video" c9e c9P (by decide) rfl rfl

/-- C10 (amended): whenever the primary pass matches a descriptor, it
assigns the normalized value (`filepath`, else `filename`, else internal
filename) to that descriptor's `filepath` key in place inside the caller's
list; when the matched descriptor lacked a `filepath` key beforehand the
document is observably modified, but when `filepath` was already present
the assignment rewrites the same value and the document is left
value-unchanged. -/
theorem c10_primary_pass_in_place_update (A : String) (pre post : List Descriptor)
    (d : Descriptor) (ifn : String)
    (hpre : ∀ x ∈ pre, extD x = A) (hd : extD d ≠ A) (hifn : d.ifilename = some ifn) :
    getRequestedVideo A (pre ++ d :: post) =
      Except.ok (pre ++ normD d ifn :: post, some (normD d ifn)) ∧
    (d.filepath = Option.none → pre ++ normD d ifn :: post ≠ pre ++ d :: post) := by
  refine ⟨grv_pass1 A pre post d ifn hpre hd hifn, ?_⟩
  intro hnone heq
  have h0 := List.append_cancel_left heq
  injection h0 with h1 h2
  have h3 := congrArg Descriptor.filepath h1
  rw [hnone] at h3
  simp [normD] at h3

/-- C10 witness: applied to `[c10w]`, whose descriptor lacks `filepath`:
the list returned alongside the selection differs from the input list. -/
theorem c10_primary_pass_in_place_update_witness :
    getRequestedVideo "mp3" [c10w] =
      Except.ok ([normD c10w "i.mp4"], some (normD c10w "i.mp4")) ∧
    (c10w.filepath = Option.none → [normD c10w "i.mp4"] ≠ [c10w]) :=
  c10_primary_pass_in_place_update "mp3" [] [] c10w "i.mp4" (by simp) (by decide) rfl

/-- C10 counterexample: on `[c10d]`, whose descriptor already carries a
`filepath`, the primary pass rewrites the same value: the document is left
unmodified (the returned list equals the input list), contradicting the
claim that the input document is never left unmodified. -/
theorem c10_filepath_present_counterexample :
    getRequestedVideo "mp3" [c10d] = Except.ok ([c10d], some c10d) ∧
    c10d.filepath.isSome = true :=
  ⟨rfl, rfl⟩
